import Mathlib

/-!
Verification development for the Qwen image-generation MCP service
(`qwen_image_mcp.py`).  The Python source is shallowly embedded: the
template registries become concrete association lists, the pure helpers
(`_enhance_prompt`, `_get_negative_prompt`, `_get_api_key`) become Lean
functions, the fallible parts of `generate_image` and of the protocol
dispatcher become `Except`-valued functions with their `try/except`
blocks modelled as explicit catches, and the async polling loop of
`_call_qwen_api` becomes a fuel-indexed iteration over an abstract
stream of task statuses.  External effects (the provider API, the HTTP
download, `json.loads`) are abstracted as function parameters.
-/

/-- One entry of `_load_style_templates` (a Python dict value). -/
structure StyleTemplate where
  name : String
  base_prompt : String
  negative_prompt : String
  photography_style : String
  lighting : String
  quality_keywords : List String
deriving Repr, DecidableEq

/-- One entry of `_load_platform_configs` (a Python dict value). -/
structure PlatformConfig where
  name : String
  suffix : String
  preferred_sizes : List String
  style_modifier : String
deriving Repr, DecidableEq

/-- The `general` style template, the fallback entry of the style registry. -/
def generalStyleTemplate : StyleTemplate :=
  { name := "通用"
  , base_prompt := "高质量图片"
  , negative_prompt := "低分辨率，错误，最差质量，低质量"
  , photography_style := "专业摄影"
  , lighting := "自然光线"
  , quality_keywords := ["高清", "精细", "清晰", "专业"] }

/-- The style registry `_load_style_templates`, in Python dict insertion order. -/
def styleTemplates : List (String × StyleTemplate) :=
  [ ("general", generalStyleTemplate)
  , ("lifestyle",
      { name := "生活方式"
      , base_prompt := "温馨生活场景，ins风格"
      , negative_prompt := "杂乱，阴暗，低质量"
      , photography_style := "生活摄影，自然抓拍"
      , lighting := "温暖自然光线"
      , quality_keywords := ["温馨", "自然", "生活感", "舒适"] })
  , ("food",
      { name := "美食"
      , base_prompt := "美食摄影，精致摆盘"
      , negative_prompt := "模糊，暗淡，不新鲜，杂乱"
      , photography_style := "美食特写，精致摆盘"
      , lighting := "柔和自然光，突出食物色泽"
      , quality_keywords := ["诱人", "新鲜", "精致", "色彩鲜艳"] })
  , ("fashion",
      { name := "时尚"
      , base_prompt := "时尚摄影，现代穿搭"
      , negative_prompt := "过时，廉价，杂乱，低质量"
      , photography_style := "时尚摄影，现代构图"
      , lighting := "专业打光，突出服装质感"
      , quality_keywords := ["时尚", "现代", "优雅", "高端"] })
  , ("travel",
      { name := "旅行"
      , base_prompt := "旅行摄影，风景如画"
      , negative_prompt := "污染，破败，阴暗，模糊"
      , photography_style := "风景摄影，壮美构图"
      , lighting := "自然光线，展现景色美感"
      , quality_keywords := ["壮美", "自然", "清新", "辽阔"] })
  , ("beauty",
      { name := "美妆"
      , base_prompt := "美妆护肤，清新自然"
      , negative_prompt := "粗糙，瑕疵，不自然，过度修饰"
      , photography_style := "美妆摄影，清新自然"
      , lighting := "柔和光线，突出肌肤质感"
      , quality_keywords := ["清新", "自然", "细腻", "光滑"] })
  , ("tech",
      { name := "科技"
      , base_prompt := "科技产品，现代简约"
      , negative_prompt := "过时，复杂，杂乱，低端"
      , photography_style := "产品摄影，简约现代"
      , lighting := "专业打光，突出科技感"
      , quality_keywords := ["现代", "简约", "高科技", "精工"] })
  , ("art",
      { name := "艺术"
      , base_prompt := "艺术创作，创意构图"
      , negative_prompt := "平庸，无创意，粗糙，低质量"
      , photography_style := "艺术摄影，创意表达"
      , lighting := "艺术光影，营造氛围"
      , quality_keywords := ["艺术", "创意", "独特", "富有表现力"] })
  , ("traditional",
      { name := "传统文化"
      , base_prompt := "中国传统文化，古典雅致"
      , negative_prompt := "现代化，西式，粗糙，不协调"
      , photography_style := "传统文化摄影，古典构图"
      , lighting := "古典光影，传统韵味"
      , quality_keywords := ["古典", "雅致", "传统", "文化底蕴"] })
  , ("business",
      { name := "商务"
      , base_prompt := "商务场景，专业正式"
      , negative_prompt := "随意，不专业，杂乱，低端"
      , photography_style := "商务摄影，正式构图"
      , lighting := "专业商务光线"
      , quality_keywords := ["专业", "正式", "高端", "商务"] })
  , ("nature",
      { name := "自然"
      , base_prompt := "自然景观，生态环境"
      , negative_prompt := "人工，破坏，污染，不自然"
      , photography_style := "自然摄影，生态记录"
      , lighting := "自然光线，真实环境"
      , quality_keywords := ["自然", "生态", "真实", "和谐"] })
  , ("portrait",
      { name := "人像"
      , base_prompt := "人物肖像，情感表达"
      , negative_prompt := "模糊，失真，不自然表情"
      , photography_style := "人像摄影，情感捕捉"
      , lighting := "人像打光，突出神态"
      , quality_keywords := ["生动", "自然", "有神", "情感丰富"] })
  , ("abstract",
      { name := "抽象"
      , base_prompt := "抽象艺术，概念表达"
      , negative_prompt := "具象，写实，平庸，无创意"
      , photography_style := "抽象表现，概念艺术"
      , lighting := "创意光效，抽象表现"
      , quality_keywords := ["抽象", "概念", "创新", "独特"] })
  , ("cartoon",
      { name := "卡通"
      , base_prompt := "卡通动漫，可爱风格"
      , negative_prompt := "写实，阴暗，成人内容"
      , photography_style := "卡通风格，动漫表现"
      , lighting := "明亮活泼，卡通光效"
      , quality_keywords := ["可爱", "活泼", "色彩鲜艳", "有趣"] }) ]

/-- The `general` platform config, the fallback entry of the platform registry. -/
def generalPlatformConfig : PlatformConfig :=
  { name := "通用"
  , suffix := ""
  , preferred_sizes := ["1328*1328", "1664*928", "1472*1140"]
  , style_modifier := "" }

/-- The platform registry `_load_platform_configs`, in Python dict insertion order. -/
def platformConfigs : List (String × PlatformConfig) :=
  [ ("general", generalPlatformConfig)
  , ("xiaohongshu",
      { name := "小红书"
      , suffix := "适合小红书分享，社交媒体风格"
      , preferred_sizes := ["1472*1140", "1328*1328", "1140*1472"]
      , style_modifier := "生活化，亲和力强" })
  , ("weibo",
      { name := "微博"
      , suffix := "适合微博分享，话题性强"
      , preferred_sizes := ["1664*928", "1328*1328"]
      , style_modifier := "话题性，吸引眼球" })
  , ("douyin",
      { name := "抖音"
      , suffix := "适合抖音短视频，竖屏优化"
      , preferred_sizes := ["928*1664", "1140*1472"]
      , style_modifier := "动感，年轻化" })
  , ("kuaishou",
      { name := "快手"
      , suffix := "适合快手平台，接地气风格"
      , preferred_sizes := ["928*1664", "1328*1328"]
      , style_modifier := "真实，接地气" })
  , ("instagram",
      { name := "Instagram"
      , suffix := "Instagram style, international aesthetic"
      , preferred_sizes := ["1328*1328", "1140*1472"]
      , style_modifier := "国际化，现代感" })
  , ("pinterest",
      { name := "Pinterest"
      , suffix := "Pinterest optimized, visual impact"
      , preferred_sizes := ["1140*1472", "928*1664"]
      , style_modifier := "视觉冲击，创意" })
  , ("tiktok",
      { name := "TikTok"
      , suffix := "TikTok ready, vertical format"
      , preferred_sizes := ["928*1664", "1140*1472"]
      , style_modifier := "年轻潮流，国际化" }) ]

/-- Values of the `Platform` `Literal` type annotation (lines 45-48 of the source). -/
def platformLiteralValues : List String :=
  ["general", "xiaohongshu", "weibo", "douyin", "kuaishou",
   "instagram", "twitter", "facebook", "pinterest", "tiktok"]

/-- Values of the `ContentStyle` `Literal` type annotation (lines 39-43 of the source). -/
def contentStyleLiteralValues : List String :=
  ["general", "lifestyle", "food", "fashion", "travel",
   "beauty", "tech", "art", "traditional", "business",
   "nature", "portrait", "abstract", "cartoon"]

/-- The `enum` list exposed for `style` in the `generate_image` tool schema:
`list(self._style_templates.keys())`. -/
def toolSchemaStyleEnum : List String := styleTemplates.map Prod.fst

/-- The `enum` list exposed for `platform` in the `generate_image` tool schema:
`list(self._platform_configs.keys())`. -/
def toolSchemaPlatformEnum : List String := platformConfigs.map Prod.fst

/-- Python truthiness of an optional string: `None` and the empty string are falsy. -/
def pyTruthy (o : Option String) : Bool := o.getD "" != ""

/-- Helper for substring search: does `needle` occur at the head of `hay`? -/
def charsPre : List Char → List Char → Bool
  | [], _ => true
  | _ :: _, [] => false
  | a :: as, b :: bs => a == b && charsPre as bs

/-- Helper for substring search: does `needle` occur anywhere in `hay`? -/
def charsSub (needle : List Char) : List Char → Bool
  | [] => charsPre needle []
  | c :: t => charsPre needle (c :: t) || charsSub needle t

/-- Python's `needle in hay` on strings: code-point substring containment. -/
def pyInStr (needle hay : String) : Bool := charsSub needle.data hay.data

/-- The style lookup performed by `_enhance_prompt` and `_get_negative_prompt`:
`self._style_templates.get(style, self._style_templates["general"])`. -/
def lookupStyle (key : String) : StyleTemplate :=
  (styleTemplates.lookup key).getD generalStyleTemplate

/-- The platform lookup performed by `_enhance_prompt`:
`self._platform_configs.get(platform, self._platform_configs["general"])`. -/
def lookupPlatform (key : String) : PlatformConfig :=
  (platformConfigs.lookup key).getD generalPlatformConfig

/-- Embedding of `_enhance_prompt` (source lines 251-289): mirrors the
sequence of truthiness-guarded appends and the final join on the
full-width comma. -/
def enhance_prompt (prompt : String) (style platform : String)
    (enable_enhancement : Bool) (custom_enhancement : Option String) : String :=
  if !enable_enhancement then prompt
  else
    let p1 : List String := [prompt]
    let p2 := if pyTruthy custom_enhancement
              then p1 ++ [custom_enhancement.getD ""] else p1
    let t := lookupStyle style
    let p3 := if t.base_prompt != "" && !(pyInStr t.base_prompt prompt)
              then p2 ++ [t.base_prompt] else p2
    let p4 := if t.photography_style != "" then p3 ++ [t.photography_style] else p3
    let p5 := if t.lighting != "" then p4 ++ [t.lighting] else p4
    let p6 := if !t.quality_keywords.isEmpty then p5 ++ t.quality_keywords else p5
    let pc := lookupPlatform platform
    let p7 := if pc.suffix != "" then p6 ++ [pc.suffix] else p6
    let p8 := if pc.style_modifier != "" then p7 ++ [pc.style_modifier] else p7
    String.intercalate "，" p8

/-- Embedding of `_get_negative_prompt` (source lines 291-302). -/
def get_negative_prompt (style : String) (custom_negative : Option String) : String :=
  let p1 : List String := []
  let p2 := if pyTruthy custom_negative then p1 ++ [custom_negative.getD ""] else p1
  let t := lookupStyle style
  let p3 := if t.negative_prompt != "" then p2 ++ [t.negative_prompt] else p2
  String.intercalate "，" p3

/-- Embedding of `_get_api_key` (source lines 244-249): Python
`provided or env` followed by the `if not api_key: raise` check. -/
def get_api_key (provided envKey : Option String) : Except String String :=
  let k := if pyTruthy provided then provided else envKey
  if !pyTruthy k
  then .error "API密钥未提供。请通过参数或环境变量 DASHSCOPE_API_KEY 设置"
  else .ok (k.getD "")

/-- An optional string is Python-falsy: absent (`None`) or the empty string. -/
def emptyOrAbsent (o : Option String) : Bool := o.getD "" == ""

/-- The successful payload of the `try` block of `generate_image`: the image
URL extracted from the provider response and the optional local path. -/
structure GenerationData where
  url : String
  localPath : Option String
deriving Repr, DecidableEq

/-- Embedding of `ImageGenerationResult` (source lines 52-60), restricted to
the fields the dispatcher and the claims observe; `generation_time` is
wall-clock and `config_used` a pure echo of the arguments, so they are not
modelled. -/
structure ImageGenerationResult where
  success : Bool
  image_url : Option String := none
  local_path : Option String := none
  error_message : Option String := none
deriving Repr, DecidableEq

/-- The body of the `try` block of `generate_image` (source lines 437-501).
The remote provider call (`_call_qwen_api` plus the mode-specific URL
extraction) is abstracted as `api`, a function from the enhanced prompt and
final negative prompt to either an image URL or a raised error; the local
download `_download_image` is abstracted as `download`, from the URL to
either a file path or a raised error. -/
def generateImageBody (providedKey envKey : Option String)
    (api : String → String → Except String String)
    (download : String → Except String String)
    (prompt : String) (style platform : String)
    (enable_enhancement : Bool) (custom_enhancement : Option String)
    (negative_prompt : Option String) (save_local : Bool) :
    Except String GenerationData := do
  let _ ← get_api_key providedKey envKey
  let enhanced := enhance_prompt prompt style platform enable_enhancement custom_enhancement
  let finalNegative := get_negative_prompt style negative_prompt
  let url ← api enhanced finalNegative
  let localPath ← if save_local then (download url).map some else pure none
  pure { url := url, localPath := localPath }

/-- Embedding of `generate_image` (source lines 416-512): the `try` body
wrapped by the catch-all `except` that returns a failure result carrying
only the error message. -/
def generate_image (providedKey envKey : Option String)
    (api : String → String → Except String String)
    (download : String → Except String String)
    (prompt : String) (style platform : String)
    (enable_enhancement : Bool) (custom_enhancement : Option String)
    (negative_prompt : Option String) (save_local : Bool) :
    ImageGenerationResult :=
  match generateImageBody providedKey envKey api download prompt style platform
      enable_enhancement custom_enhancement negative_prompt save_local with
  | .ok d =>
      { success := true
      , image_url := some d.url
      , local_path := d.localPath
      , error_message := none }
  | .error e =>
      { success := false
      , image_url := none
      , local_path := none
      , error_message := some ("生成图片失败: " ++ e) }

/-- One fetch outcome and the sleeps of the async polling loop of
`_call_qwen_api` (source lines 383-398).  `fetch i` is the `task_status`
string reported by the `i`-th `ImageSynthesis.fetch`; the loop returns the
index of the succeeding fetch, raises on `FAILED`, and sleeps 3 seconds
after every non-terminal poll.  The `fuel` argument is an observation bound
only: the Python loop is `while True` with no bound of its own. -/
def pollLoop (fetch : Nat → String) (i : Nat) :
    Nat → Option (Except Nat Nat × List Nat)
  | 0 => none
  | fuel + 1 =>
      if fetch i = "SUCCEEDED" then some (.ok i, [])
      else if fetch i = "FAILED" then some (.error i, [])
      else (pollLoop fetch (i + 1) fuel).map (fun r => (r.1, 3 :: r.2))

/-- A JSON scalar as it appears among the `arguments` of a `tools/call`. -/
inductive PyVal
  | str (s : String)
  | int (n : Int)
  | bool (b : Bool)
  | none
deriving Repr, DecidableEq

/-- A content block of a tool response: `{"type": "text", "text": s}`. -/
inductive ContentBlock
  | text (s : String)
deriving Repr, DecidableEq

/-- The dictionary returned by `handle_tool_call`; a missing `isError` key in
the Python dict is modelled as `isError := false`. -/
structure ToolCallResult where
  content : List ContentBlock
  isError : Bool := false
deriving Repr, DecidableEq

/-- The keyword parameter names of `generate_image` (source lines 416-432). -/
def generateImageParamNames : List String :=
  ["prompt", "api_key", "style", "platform", "size", "model", "call_mode",
   "prompt_extend", "watermark", "negative_prompt", "seed",
   "enable_enhancement", "custom_enhancement", "save_local", "output_dir"]

/-- The `TypeError` raised (or not) by the call `self.generate_image(**arguments)`:
an argument key outside the parameter list, or a missing required `prompt`,
raises before the function body runs. -/
def callKwargsCheck (args : List (String × PyVal)) : Option String :=
  match args.find? (fun kv => !(generateImageParamNames.contains kv.1)) with
  | some kv => some ("generate_image() got an unexpected keyword argument " ++ kv.1)
  | Option.none =>
      if (args.lookup "prompt").isNone
      then some "generate_image() missing 1 required positional argument: prompt"
      else Option.none

/-- Stand-in for `json.dumps(response_data)` in the `generate_image` branch of
`handle_tool_call`; no claim observes this text. -/
def dumpsGenerationResult (r : ImageGenerationResult) : String := toString (repr r)

/-- Stand-in for `json.dumps` of a key → display-name mapping in the
`list_styles` / `list_platforms` branches; no claim observes this text. -/
def dumpsNameMap (m : List (String × String)) : String :=
  String.intercalate ", " (m.map (fun kv => kv.1 ++ ": " ++ kv.2))

/-- Stand-in for `json.dumps(style_info)` in the `get_style_info` branch; no
claim observes this text. -/
def dumpsStyleTemplate (t : StyleTemplate) : String := toString (repr t)

/-- Rendering of a Python value inside an f-string (`f"未找到风格: {style}"`). -/
def displayArg : Option PyVal → String
  | some (.str s) => s
  | some (.int n) => toString n
  | some (.bool b) => if b then "True" else "False"
  | some .none => "None"
  | Option.none => "None"

/-- The body of the `try` block of `handle_tool_call` (source lines 649-729).
The call to `generate_image` is abstracted as the total function `genImage`
(the Python `generate_image` catches every exception internally and always
returns a result, as established for its embedding); the `**arguments`
unpacking that precedes it can raise, which `callKwargsCheck` models. -/
def handleToolCallBody (genImage : List (String × PyVal) → ImageGenerationResult)
    (name : String) (args : List (String × PyVal)) : Except String ToolCallResult :=
  if name = "generate_image" then
    match callKwargsCheck args with
    | some e => .error e
    | Option.none =>
        .ok { content := [.text (dumpsGenerationResult (genImage args))] }
  else if name = "list_styles" then
    .ok { content := [.text (dumpsNameMap (styleTemplates.map (fun kv => (kv.1, kv.2.name))))] }
  else if name = "list_platforms" then
    .ok { content := [.text (dumpsNameMap (platformConfigs.map (fun kv => (kv.1, kv.2.name))))] }
  else if name = "get_style_info" then
    match args.lookup "style" with
    | some (.str s) =>
        match styleTemplates.lookup s with
        | some t => .ok { content := [.text (dumpsStyleTemplate t)] }
        | Option.none =>
            .ok { content := [.text ("未找到风格: " ++ s)], isError := true }
    | other =>
        .ok { content := [.text ("未找到风格: " ++ displayArg other)], isError := true }
  else
    .ok { content := [.text ("未知工具: " ++ name)], isError := true }

/-- Embedding of `handle_tool_call` (source lines 647-741): the body wrapped
by the catch-all `except Exception` that converts any raised error into a
content block with `isError: true`. -/
def handle_tool_call (genImage : List (String × PyVal) → ImageGenerationResult)
    (name : String) (args : List (String × PyVal)) : ToolCallResult :=
  match handleToolCallBody genImage name args with
  | .ok r => r
  | .error e => { content := [.text ("工具调用失败: " ++ e)], isError := true }

/-- A parsed protocol request whose `params` field is a JSON object, with the
fields `handle_mcp_request` reads: `request.get("method")`,
`request.get("id")`, and for `tools/call` `params.get("name")` and
`params.get("arguments", {})`.  A request whose `params` is not an object is
representable only by `RawMcpRequest` below, which is the full embedding of
`handle_mcp_request`; this restricted shape covers the object-`params`
fragment. -/
structure McpRequest where
  id : Option PyVal
  method : String
  paramsName : String
  paramsArgs : List (String × PyVal)

/-- The payload of a successful protocol response: the static `initialize`
payload, the static `tools/list` descriptor list, or a tool-call result. -/
inductive RpcResult
  | initResult
  | toolsList
  | toolResult (r : ToolCallResult)
deriving Repr, DecidableEq

/-- A protocol response line: `{"jsonrpc","id","result"}` or
`{"jsonrpc","id","error":{"code","message"}}`. -/
inductive McpResponse
  | result (id : Option PyVal) (r : RpcResult)
  | error (id : Option PyVal) (code : Int) (msg : String)
deriving Repr, DecidableEq

/-- The method dispatch inside the `try` of `handle_mcp_request` (source
lines 775-792): `none` is the unknown-method branch; a `some (.error e)`
would be an exception escaping a handler — `handle_tool_call` catches its
own exceptions, so the `tools/call` arm is total. -/
def dispatchMethod (genImage : List (String × PyVal) → ImageGenerationResult)
    (req : McpRequest) : Option (Except String RpcResult) :=
  if req.method = "initialize" then some (.ok .initResult)
  else if req.method = "tools/list" then some (.ok .toolsList)
  else if req.method = "tools/call" then
    some (.ok (.toolResult (handle_tool_call genImage req.paramsName req.paramsArgs)))
  else Option.none

/-- Embedding of `handle_mcp_request` (source lines 769-809): unknown method
gives the `-32601` error object, an exception escaping a handler gives the
`-32603` error object (the catch-all `except` at lines 800-809), otherwise
the handler result is wrapped in a `result` envelope. -/
def handle_mcp_request (genImage : List (String × PyVal) → ImageGenerationResult)
    (req : McpRequest) : McpResponse :=
  match dispatchMethod genImage req with
  | Option.none => .error req.id (-32601) ("未知方法: " ++ req.method)
  | some (.ok r) => .result req.id r
  | some (.error e) => .error req.id (-32603) ("内部错误: " ++ e)

/-- The `params` field of a parsed request as `handle_mcp_request` receives
it: either a JSON object (a dict, on which `params.get` succeeds), or any
other JSON value — `null`, an array, a string, a number — on which
`params.get("name")` raises `AttributeError`.  `notDict` carries the Python
type name that appears in the exception text. -/
inductive ParamsVal
  | obj (name : String) (arguments : List (String × PyVal))
  | notDict (typeName : String)
deriving Repr, DecidableEq

/-- A parsed protocol request with an arbitrary `params` value: the shape
`handle_mcp_request` actually receives from `json.loads` of an object line. -/
structure RawMcpRequest where
  id : Option PyVal
  method : String
  params : ParamsVal

/-- The `AttributeError` raised by `params.get("name")` when `params` is not
a dict (source line 781); the exception text is modelled without Python's
quoting. -/
def paramsGetError (typeName : String) : String :=
  "AttributeError: " ++ typeName ++ " object has no attribute get"

/-- The method dispatch inside the `try` of `handle_mcp_request` (source
lines 775-792) over a raw request: `none` is the unknown-method branch; the
`tools/call` arm reads `params.get("name")`, which raises when `params` is
not a dict — this is the one exception that can escape to the catch-all,
since `handle_tool_call` catches its own. -/
def dispatchMethodBody (genImage : List (String × PyVal) → ImageGenerationResult)
    (req : RawMcpRequest) : Option (Except String RpcResult) :=
  if req.method = "initialize" then some (.ok .initResult)
  else if req.method = "tools/list" then some (.ok .toolsList)
  else if req.method = "tools/call" then
    some (match req.params with
      | .obj name args => .ok (.toolResult (handle_tool_call genImage name args))
      | .notDict typeName => .error (paramsGetError typeName))
  else Option.none

/-- Full embedding of `handle_mcp_request` (source lines 769-809) over a raw
request: unknown method gives the `-32601` error object, an exception
escaping inside the `try` — reachable exactly when a `tools/call` carries a
non-dict `params` — gives the `-32603` error object (the catch-all `except`
at lines 800-809), otherwise the handler result is wrapped in a `result`
envelope. -/
def handle_mcp_request_raw (genImage : List (String × PyVal) → ImageGenerationResult)
    (req : RawMcpRequest) : McpResponse :=
  match dispatchMethodBody genImage req with
  | Option.none => .error req.id (-32601) ("未知方法: " ++ req.method)
  | some (.ok r) => .result req.id r
  | some (.error e) => .error req.id (-32603) ("内部错误: " ++ e)

/-- Embedding of the read loop of `run_mcp_server` (source lines 743-767)
over a finite stream of input lines.  `parse` abstracts `json.loads`
followed by field extraction, with `none` for a `JSONDecodeError`; an
element `""` is `readline` reporting end of input (`if not line: break`);
the returned list holds the response lines printed, in order. -/
def runMcpServer (parse : String → Option McpRequest)
    (genImage : List (String × PyVal) → ImageGenerationResult) :
    List String → List McpResponse
  | [] => []
  | line :: rest =>
      if line = "" then []
      else
        let s := line.trim
        if s = "" then runMcpServer parse genImage rest
        else
          match parse s with
          | Option.none => runMcpServer parse genImage rest
          | some req => handle_mcp_request genImage req :: runMcpServer parse genImage rest

/-- The prompt composition as the spec words it (for comparison with the
source-derived `enhance_prompt`): the join, on the full-width comma, of the
raw prompt, then the custom text if present, then the style's base-prompt
fragment only if it is not already a substring of the raw prompt, then the
photography-style fragment, the lighting fragment, each quality keyword in
registry order, then the platform's suffix and style-modifier, skipping any
empty fragment among them. -/
def composePromptSpec (rawPrompt style platform : String)
    (customText : Option String) : String :=
  let t := lookupStyle style
  let pc := lookupPlatform platform
  let fragments :=
    (match customText with | some c => [c] | Option.none => [])
    ++ (if pyInStr t.base_prompt rawPrompt then [] else [t.base_prompt])
    ++ [t.photography_style, t.lighting]
    ++ t.quality_keywords
    ++ [pc.suffix, pc.style_modifier]
  String.intercalate "，" (rawPrompt :: fragments.filter (fun s => s != ""))

/-- A raised `ValueError` from `_get_api_key`, as opposed to a returned key. -/
def isConfigError (r : Except String String) : Bool :=
  match r with
  | .error _ => true
  | .ok _ => false

/-! ## Helper lemmas -/

/-- A value produced by an association-list lookup is one of the stored values. -/
theorem lookup_mem_values {α β : Type} [BEq α] (l : List (α × β)) (k : α) (b : β)
    (h : l.lookup k = some b) : b ∈ l.map Prod.snd := by
  induction l with
  | nil => simp [List.lookup] at h
  | cons hd tl ih =>
      obtain ⟨k₁, v⟩ := hd
      rw [List.lookup] at h
      split at h
      · cases h; simp
      · simpa using Or.inr (ih h)

/-- A key absent from the key column of an association list looks up to `none`. -/
theorem lookup_eq_none_of_not_mem {α β : Type} [BEq α] [LawfulBEq α]
    (l : List (α × β)) (k : α) (h : k ∉ l.map Prod.fst) : l.lookup k = Option.none := by
  induction l with
  | nil => rfl
  | cons hd tl ih =>
      obtain ⟨k₁, v⟩ := hd
      simp only [List.map_cons, List.mem_cons] at h
      push_neg at h
      rw [List.lookup]
      have hb : (k == k₁) = false := by
        simpa using h.1
      rw [hb]
      exact ih h.2

/-! ## Claim theorems -/

/-- Claim C4: with enhancement disabled, `_enhance_prompt` returns the raw prompt
unchanged, byte for byte, for every style, platform and custom text. -/
theorem enhancement_disabled_returns_raw (prompt style platform : String)
    (custom : Option String) :
    enhance_prompt prompt style platform false custom = prompt := rfl

/-- Evidence for C2: the platform registry and the schema `enum` derived from its
keys have 8 entries, not the 10 the claim states; the code's own `Platform`
`Literal` type does declare 10 values, and the two values `twitter` and
`facebook` it declares are absent from the registry. -/
theorem platform_registry_has_eight_entries :
    platformConfigs.length = 8 ∧ toolSchemaPlatformEnum.length = 8 ∧
    platformLiteralValues.length = 10 ∧
    "twitter" ∈ platformLiteralValues ∧ platformConfigs.lookup "twitter" = Option.none ∧
    "facebook" ∈ platformLiteralValues ∧ platformConfigs.lookup "facebook" = Option.none := by
  refine ⟨rfl, rfl, rfl, by decide, by decide, by decide, by decide⟩

/-- Claim C10: `_get_api_key` treats an empty-string provided key exactly like an
absent one (the environment credential is consulted), and it raises the
configuration error if and only if both the provided key and the environment
credential are empty or absent. -/
theorem api_key_resolution (provided envKey : Option String) :
    (emptyOrAbsent provided = true →
      get_api_key provided envKey = get_api_key Option.none envKey) ∧
    (isConfigError (get_api_key provided envKey) = true ↔
      (emptyOrAbsent provided = true ∧ emptyOrAbsent envKey = true)) ∧
    (emptyOrAbsent provided = true → emptyOrAbsent envKey = false →
      get_api_key provided envKey = .ok (envKey.getD "")) := by
  rcases provided with _ | p
  · rcases envKey with _ | e
    · simp [get_api_key, pyTruthy, emptyOrAbsent, isConfigError]
    · by_cases he : e = "" <;>
        simp [get_api_key, pyTruthy, emptyOrAbsent, isConfigError, he]
  · rcases envKey with _ | e
    · by_cases hp : p = "" <;>
        simp [get_api_key, pyTruthy, emptyOrAbsent, isConfigError, hp]
    · by_cases hp : p = "" <;> by_cases he : e = "" <;>
        simp [get_api_key, pyTruthy, emptyOrAbsent, isConfigError, hp, he]

/-- Witness for C10 at concrete inputs: an empty provided key defers to the
environment, and the error fires when both are empty. -/
theorem api_key_resolution_witness :
    get_api_key (some "") (some "sk-env") = get_api_key Option.none (some "sk-env") ∧
    isConfigError (get_api_key (some "") (some "")) = true ∧
    get_api_key (some "") (some "sk-env") = .ok "sk-env" := by
  refine ⟨(api_key_resolution (some "") (some "sk-env")).1 (by decide),
    (api_key_resolution (some "") (some "")).2.1.mpr ⟨by decide, by decide⟩,
    by simpa using (api_key_resolution (some "") (some "sk-env")).2.2 (by decide) (by decide)⟩

/-- Claim C5: style and platform lookup are total with the `general` fallback: any
key absent from the registry resolves to the `general` entry, and hence the
prompt-composition and negative-prompt paths behave on an absent key exactly
as they do on `general`. -/
theorem lookup_total_fallback (skey pkey : String) :
    (skey ∉ styleTemplates.map Prod.fst → lookupStyle skey = generalStyleTemplate) ∧
    (pkey ∉ platformConfigs.map Prod.fst → lookupPlatform pkey = generalPlatformConfig) ∧
    (∀ (prompt : String) (en : Bool) (custom : Option String),
      skey ∉ styleTemplates.map Prod.fst → pkey ∉ platformConfigs.map Prod.fst →
      enhance_prompt prompt skey pkey en custom =
        enhance_prompt prompt "general" "general" en custom) ∧
    (∀ cn : Option String, skey ∉ styleTemplates.map Prod.fst →
      get_negative_prompt skey cn = get_negative_prompt "general" cn) := by
  have hgenS : lookupStyle "general" = generalStyleTemplate := rfl
  have hgenP : lookupPlatform "general" = generalPlatformConfig := rfl
  refine ⟨?_, ?_, ?_, ?_⟩
  · intro h; simp [lookupStyle, lookup_eq_none_of_not_mem _ _ h]
  · intro h; simp [lookupPlatform, lookup_eq_none_of_not_mem _ _ h]
  · intro prompt en custom hs hp
    have h1 : lookupStyle skey = generalStyleTemplate := by
      simp [lookupStyle, lookup_eq_none_of_not_mem _ _ hs]
    have h2 : lookupPlatform pkey = generalPlatformConfig := by
      simp [lookupPlatform, lookup_eq_none_of_not_mem _ _ hp]
    simp only [enhance_prompt, h1, h2, hgenS, hgenP]
  · intro cn hs
    have h1 : lookupStyle skey = generalStyleTemplate := by
      simp [lookupStyle, lookup_eq_none_of_not_mem _ _ hs]
    simp only [get_negative_prompt, h1, hgenS]

/-- Witness for C5: a style key and a platform key that are in neither
registry fall back to `general` in every path. -/
theorem lookup_total_fallback_witness :
    lookupStyle "anime" = generalStyleTemplate ∧
    lookupPlatform "wechat" = generalPlatformConfig ∧
    enhance_prompt "夕阳下的街道" "anime" "wechat" true Option.none =
      enhance_prompt "夕阳下的街道" "general" "general" true Option.none ∧
    get_negative_prompt "anime" Option.none = get_negative_prompt "general" Option.none :=
  ⟨(lookup_total_fallback "anime" "wechat").1 (by decide),
   (lookup_total_fallback "anime" "wechat").2.1 (by decide),
   (lookup_total_fallback "anime" "wechat").2.2.1 _ _ _ (by decide) (by decide),
   (lookup_total_fallback "anime" "wechat").2.2.2 _ (by decide)⟩

/-- Every quality keyword stored in the style registry is a non-empty string. -/
theorem styleTemplates_keywords_nonempty :
    (styleTemplates.map Prod.snd).all
      (fun t => t.quality_keywords.all (fun s => s != "")) = true := by decide

/-- The template any style key resolves to has only non-empty quality keywords. -/
theorem lookupStyle_keywords_nonempty (key : String) :
    (lookupStyle key).quality_keywords.all (fun s => s != "") = true := by
  unfold lookupStyle
  cases h : styleTemplates.lookup key with
  | none => decide
  | some t =>
      have hmem := lookup_mem_values _ _ _ h
      have hall := styleTemplates_keywords_nonempty
      rw [List.all_eq_true] at hall
      simpa using hall _ hmem

/-- Appending under a condition equals appending the conditional tail. -/
theorem if_append_eq {α : Type} (c : Prop) [Decidable c] (a b : List α) :
    (if c then a ++ b else a) = a ++ (if c then b else []) := by
  split <;> simp

/-- Keeping a list under a non-emptiness guard is the identity. -/
theorem if_isEmpty_self (l : List String) : (if (!l.isEmpty) = true then l else []) = l := by
  cases l <;> simp

/-- Claim C3: with enhancement enabled, the composed prompt is the join, on the
full-width comma, of the raw prompt, then the custom text if present, then
the style's base-prompt fragment only if not already a substring of the raw
prompt, then the photography-style fragment, the lighting fragment, each
quality keyword in registry order, then the platform's suffix and
style-modifier, skipping any empty fragment — stated as equality of the
source-derived `enhance_prompt` with the spec-worded `composePromptSpec`. -/
theorem enhance_matches_spec_composition (prompt style platform : String)
    (custom : Option String) :
    enhance_prompt prompt style platform true custom =
      composePromptSpec prompt style platform custom := by
  have hfk : (lookupStyle style).quality_keywords.filter (fun s => s != "") =
      (lookupStyle style).quality_keywords :=
    List.filter_eq_self.mpr (by
      have := lookupStyle_keywords_nonempty style
      rw [List.all_eq_true] at this
      exact this)
  simp only [enhance_prompt, composePromptSpec]
  rw [if_neg (by decide : ¬((!true) = true))]
  congr 1
  rw [if_append_eq, if_append_eq, if_append_eq, if_append_eq, if_append_eq,
    if_append_eq, if_append_eq]
  obtain ⟨t, hT⟩ : ∃ t, lookupStyle style = t := ⟨_, rfl⟩
  obtain ⟨pc, hP⟩ : ∃ pc, lookupPlatform platform = pc := ⟨_, rfl⟩
  rw [hT] at hfk ⊢
  rw [hP]
  obtain ⟨bIn, hIn⟩ : ∃ b, pyInStr t.base_prompt prompt = b := ⟨_, rfl⟩
  rw [hIn]
  rw [if_isEmpty_self]
  simp only [List.filter_append]
  rw [hfk]
  clear hT hP hIn hfk
  rcases custom with _ | c <;> rcases bIn <;>
    simp [pyTruthy, List.filter_cons, List.filter_nil, List.append_assoc,
      List.singleton_append] <;>
    split_ifs <;> simp

/-- Counterexample for C1: a concrete call in which the provider yields a URL but
the download raises — the returned result has `success == false` as claimed,
but `image_url` is `None`, not the obtained URL: the `except` branch of
`generate_image` constructs the failure result without `image_url`. -/
theorem generate_image_url_dropped_on_download_failure :
    generate_image (some "sk-test") Option.none
        (fun _ _ => .ok "https://img.example/x.png")
        (fun _ => .error "404 Client Error")
        "一只猫" "general" "general" true Option.none Option.none true =
      { success := false, image_url := Option.none, local_path := Option.none,
        error_message := some "生成图片失败: 404 Client Error" } ∧
    (generate_image (some "sk-test") Option.none
        (fun _ _ => .ok "https://img.example/x.png")
        (fun _ => .error "404 Client Error")
        "一只猫" "general" "general" true Option.none Option.none true).image_url ≠
      some "https://img.example/x.png" := by
  exact ⟨rfl, by decide⟩

/-- Claim C1 as amended: when the provider call succeeds but the local download
fails, the returned result has `success == false` with `error_message` set,
and both `image_url` and `local_path` are absent — the obtained URL is
discarded by the exception handler. -/
theorem generate_image_download_failure (providedKey envKey : Option String)
    (api : String → String → Except String String)
    (download : String → Except String String)
    (prompt style platform : String) (en : Bool) (custom neg : Option String)
    (key url e : String)
    (hkey : get_api_key providedKey envKey = .ok key)
    (hapi : api (enhance_prompt prompt style platform en custom)
        (get_negative_prompt style neg) = .ok url)
    (hdl : download url = .error e) :
    generate_image providedKey envKey api download prompt style platform en custom neg true =
      { success := false, image_url := Option.none, local_path := Option.none,
        error_message := some ("生成图片失败: " ++ e) } := by
  simp [generate_image, generateImageBody, hkey, hapi, hdl, Except.map, Except.bind, bind]

/-- Witness for the amended C1 at concrete inputs. -/
theorem generate_image_download_failure_witness :
    generate_image (some "k") Option.none (fun _ _ => .ok "u") (fun _ => .error "io")
        "p" "general" "general" false Option.none Option.none true =
      { success := false, image_url := Option.none, local_path := Option.none,
        error_message := some ("生成图片失败: " ++ "io") } :=
  generate_image_download_failure _ _ _ _ _ _ _ _ _ _ "k" "u" "io" rfl rfl rfl

/-- Claim C6: an input line that fails JSON parsing produces no output line and the
read loop continues with the remaining lines exactly as if the bad line had
not been there. -/
theorem invalid_json_line_skipped (parse : String → Option McpRequest)
    (genImage : List (String × PyVal) → ImageGenerationResult)
    (line : String) (rest : List String)
    (hne : line ≠ "") (hparse : parse line.trim = Option.none) :
    runMcpServer parse genImage (line :: rest) = runMcpServer parse genImage rest := by
  rw [runMcpServer]
  rw [if_neg hne]
  by_cases hs : line.trim = ""
  · simp [hs]
  · simp [hs, hparse]

/-- Witness for C6: a concrete unparsable line is skipped. -/
theorem invalid_json_line_skipped_witness :
    runMcpServer (fun _ => Option.none) (fun _ => { success := false }) ["not json", "x"] =
      runMcpServer (fun _ => Option.none) (fun _ => { success := false }) ["x"] :=
  invalid_json_line_skipped _ _ _ _ (by decide) rfl

/-- Claim C7: a `tools/call` whose tool name is none of the four registered tools
yields a JSON-RPC `result` envelope holding a content block with
`isError: true` — not a protocol-level `error` object. -/
theorem unknown_tool_yields_tool_error
    (genImage : List (String × PyVal) → ImageGenerationResult)
    (id : Option PyVal) (name : String) (args : List (String × PyVal))
    (h : name ∉ ["generate_image", "list_styles", "list_platforms", "get_style_info"]) :
    handle_mcp_request genImage
        { id := id, method := "tools/call", paramsName := name, paramsArgs := args } =
      .result id (.toolResult
        { content := [.text ("未知工具: " ++ name)], isError := true }) := by
  simp only [List.mem_cons, List.mem_singleton] at h
  push_neg at h
  obtain ⟨h1, h2, h3, h4⟩ := h
  simp [handle_mcp_request, dispatchMethod, handle_tool_call, handleToolCallBody,
    h1, h2, h3, h4]

/-- Witness for C7 at a concrete unknown tool name. -/
theorem unknown_tool_yields_tool_error_witness :
    handle_mcp_request (fun _ => { success := false })
        { id := some (.int 7), method := "tools/call", paramsName := "echo", paramsArgs := [] } =
      .result (some (.int 7)) (.toolResult
        { content := [.text ("未知工具: " ++ "echo")], isError := true }) :=
  unknown_tool_yields_tool_error _ _ _ _ (by decide)

/-- Counterexample for C9: a parsed `tools/call` request whose `params` is
JSON `null` — a dict is absent, so `params.get("name")` at source line 781
raises `AttributeError` inside the `try` of `handle_mcp_request`, outside
`handle_tool_call` — is answered with a protocol-level `-32603` error
object, refuting the claim's clause that a parsed `tools/call` never
produces one. -/
theorem tools_call_non_object_params_counterexample :
    handle_mcp_request_raw (fun _ => { success := false })
        { id := some (.int 1), method := "tools/call", params := .notDict "NoneType" } =
      .error (some (.int 1)) (-32603) ("内部错误: " ++ paramsGetError "NoneType") := rfl

/-- Claim C9 as amended: every error the `tools/call` tool handler body
raises — including the keyword-argument error raised when `generate_image`
receives a field outside its schema — is caught inside `handle_tool_call`
and surfaced as a content block with `isError: true`, and a parsed
`tools/call` request whose `params` is a JSON object is always answered
with a JSON-RPC `result` envelope; but when `params` is not an object,
`params.get("name")` raises inside `handle_mcp_request` itself and the
request is answered with a protocol-level `-32603` error object. -/
theorem tool_call_exception_policy
    (genImage : List (String × PyVal) → ImageGenerationResult)
    (id : Option PyVal) (name : String) (args : List (String × PyVal))
    (typeName : String) :
    (∀ e, handleToolCallBody genImage name args = .error e →
      handle_tool_call genImage name args =
        { content := [.text ("工具调用失败: " ++ e)], isError := true }) ∧
    (handle_mcp_request_raw genImage
        { id := id, method := "tools/call", params := .obj name args } =
      .result id (.toolResult (handle_tool_call genImage name args))) ∧
    (∀ (id2 : Option PyVal) (code : Int) (msg : String),
      handle_mcp_request_raw genImage
          { id := id, method := "tools/call", params := .obj name args } ≠
        .error id2 code msg) ∧
    (∀ (k : String) (v : PyVal), (k, v) ∈ args → k ∉ generateImageParamNames →
      (handle_tool_call genImage "generate_image" args).isError = true) ∧
    (handle_mcp_request_raw genImage
        { id := id, method := "tools/call", params := .notDict typeName } =
      .error id (-32603) ("内部错误: " ++ paramsGetError typeName)) := by
  have hcall : handle_mcp_request_raw genImage
      { id := id, method := "tools/call", params := .obj name args } =
      .result id (.toolResult (handle_tool_call genImage name args)) := by
    simp [handle_mcp_request_raw, dispatchMethodBody]
  refine ⟨?_, hcall, ?_, ?_, ?_⟩
  · intro e he
    simp [handle_tool_call, he]
  · intro id2 code msg
    rw [hcall]
    simp
  · intro k v hmem hnot
    cases hc : callKwargsCheck args with
    | some e => simp [handle_tool_call, handleToolCallBody, hc]
    | none =>
        exfalso
        cases hf : args.find? (fun kv => !(generateImageParamNames.contains kv.1)) with
        | some kv =>
            unfold callKwargsCheck at hc
            rw [hf] at hc
            simp at hc
        | none =>
            have hp := List.find?_eq_none.mp hf _ hmem
            simp at hp
            exact hnot hp
  · simp [handle_mcp_request_raw, dispatchMethodBody]

/-- Witness for the amended C9: a `generate_image` call carrying the
out-of-schema field `prompts` is answered with a caught, `isError: true`
content block inside a `result` envelope, while a `tools/call` whose
`params` is an array is answered with a `-32603` error object. -/
theorem tool_call_exception_policy_witness :
    handle_tool_call (fun _ => { success := false }) "generate_image"
        [("prompts", PyVal.str "x")] =
      { content := [.text ("工具调用失败: " ++
          ("generate_image() got an unexpected keyword argument " ++ "prompts"))],
        isError := true } ∧
    handle_mcp_request_raw (fun _ => { success := false })
        { id := Option.none, method := "tools/call",
          params := .obj "generate_image" [("prompts", PyVal.str "x")] } =
      .result Option.none (.toolResult (handle_tool_call (fun _ => { success := false })
        "generate_image" [("prompts", PyVal.str "x")])) ∧
    (handle_tool_call (fun _ => { success := false }) "generate_image"
        [("prompts", PyVal.str "x")]).isError = true ∧
    handle_mcp_request_raw (fun _ => { success := false })
        { id := some (.int 2), method := "tools/call", params := .notDict "list" } =
      .error (some (.int 2)) (-32603) ("内部错误: " ++ paramsGetError "list") := by
  refine ⟨?_, ?_, ?_, ?_⟩
  · exact (tool_call_exception_policy _ Option.none "generate_image" _ "list").1 _ rfl
  · exact (tool_call_exception_policy _ Option.none "generate_image" _ "list").2.1
  · exact (tool_call_exception_policy _ Option.none "generate_image" _ "list").2.2.2.1
      "prompts" (.str "x") (by decide) (by decide)
  · exact (tool_call_exception_policy _ (some (.int 2)) "generate_image" [] "list").2.2.2.2

/-- A polling stream that never reports a terminal status keeps the loop
running for every observation bound. -/
theorem pollLoop_nonterminal_none (fetch : Nat → String)
    (h : ∀ i, fetch i ≠ "SUCCEEDED" ∧ fetch i ≠ "FAILED") :
    ∀ (fuel s : Nat), pollLoop fetch s fuel = Option.none := by
  intro fuel
  induction fuel with
  | zero => intro s; rfl
  | succ f ih =>
      intro s
      rw [pollLoop, if_neg (h s).1, if_neg (h s).2, ih (s + 1)]
      rfl

/-- The loop stops exactly at the first terminal poll, having slept 3 seconds
after each of the preceding non-terminal polls. -/
theorem pollLoop_first_terminal (fetch : Nat → String) :
    ∀ (i s fuel : Nat),
      (∀ j, j < i → fetch (s + j) ≠ "SUCCEEDED" ∧ fetch (s + j) ≠ "FAILED") →
      i < fuel →
      (fetch (s + i) = "SUCCEEDED" →
        pollLoop fetch s fuel = some (.ok (s + i), List.replicate i 3)) ∧
      (fetch (s + i) = "FAILED" →
        pollLoop fetch s fuel = some (.error (s + i), List.replicate i 3)) := by
  intro i
  induction i with
  | zero =>
      intro s fuel h hf
      cases fuel with
      | zero => omega
      | succ f =>
          rw [Nat.add_zero]
          constructor
          · intro hs
            rw [pollLoop, if_pos hs]
            rfl
          · intro hs
            rw [pollLoop, if_neg (by rw [hs]; decide), if_pos hs]
            rfl
  | succ n ih =>
      intro s fuel h hf
      cases fuel with
      | zero => omega
      | succ f =>
          have h0 := h 0 (by omega)
          rw [Nat.add_zero] at h0
          have hshift : ∀ j, j < n →
              fetch (s + 1 + j) ≠ "SUCCEEDED" ∧ fetch (s + 1 + j) ≠ "FAILED" := by
            intro j hj
            have := h (j + 1) (by omega)
            have heq : s + (j + 1) = s + 1 + j := by omega
            rwa [heq] at this
          have hrec := ih (s + 1) f hshift (by omega)
          have heq : s + (n + 1) = s + 1 + n := by omega
          rw [heq]
          constructor
          · intro hs
            rw [pollLoop, if_neg h0.1, if_neg h0.2, hrec.1 hs]
            simp [List.replicate_succ]
          · intro hs
            rw [pollLoop, if_neg h0.1, if_neg h0.2, hrec.2 hs]
            simp [List.replicate_succ]

/-- Claim C8: the async polling loop returns exactly when a poll first reports
`SUCCEEDED`, raises exactly when a poll first reports `FAILED`, sleeps a
fixed 3 seconds after every preceding non-terminal poll, and enforces no
retry bound or timeout: on a stream that never reaches a terminal state, no
observation bound makes the loop terminate. -/
theorem async_polling_behavior (fetch : Nat → String) :
    (∀ i fuel, (∀ j, j < i → fetch j ≠ "SUCCEEDED" ∧ fetch j ≠ "FAILED") →
      fetch i = "SUCCEEDED" → i < fuel →
      pollLoop fetch 0 fuel = some (.ok i, List.replicate i 3)) ∧
    (∀ i fuel, (∀ j, j < i → fetch j ≠ "SUCCEEDED" ∧ fetch j ≠ "FAILED") →
      fetch i = "FAILED" → i < fuel →
      pollLoop fetch 0 fuel = some (.error i, List.replicate i 3)) ∧
    ((∀ i, fetch i ≠ "SUCCEEDED" ∧ fetch i ≠ "FAILED") →
      ∀ fuel, pollLoop fetch 0 fuel = Option.none) := by
  refine ⟨?_, ?_, ?_⟩
  · intro i fuel h hs hf
    have := (pollLoop_first_terminal fetch i 0 fuel (by simpa using h) hf).1
      (by simpa using hs)
    simpa using this
  · intro i fuel h hs hf
    have := (pollLoop_first_terminal fetch i 0 fuel (by simpa using h) hf).2
      (by simpa using hs)
    simpa using this
  · intro h fuel
    exact pollLoop_nonterminal_none fetch h fuel 0

/-- Witness for C8: a job succeeding on the third poll returns after two
3-second sleeps, a job failing on the second poll raises after one, and a
job that never terminates outlives any bound, here 1000 iterations. -/
theorem async_polling_behavior_witness :
    pollLoop (fun j => if j = 2 then "SUCCEEDED" else "RUNNING") 0 4 =
      some (.ok 2, [3, 3]) ∧
    pollLoop (fun j => if j = 1 then "FAILED" else "RUNNING") 0 9 =
      some (.error 1, [3]) ∧
    pollLoop (fun _ => "RUNNING") 0 1000 = Option.none := by
  refine ⟨?_, ?_, ?_⟩
  · have := (async_polling_behavior (fun j => if j = 2 then "SUCCEEDED" else "RUNNING")).1
      2 4 (by intro j hj; interval_cases j <;> exact ⟨by decide, by decide⟩)
      (by decide) (by decide)
    simpa using this
  · have := (async_polling_behavior (fun j => if j = 1 then "FAILED" else "RUNNING")).2.1
      1 9 (by intro j hj; interval_cases j; exact ⟨by decide, by decide⟩)
      (by decide) (by decide)
    simpa using this
  · exact (async_polling_behavior (fun _ => "RUNNING")).2.2
      (fun i => ⟨by decide, by decide⟩) 1000
